import Mathlib

/-!
nautune: the Linux runner entry point.

Verification development for `linux/runner/main.cc`:

```
int main(int argc, char** argv) {
  setenv("GDK_BACKEND", "x11", 0);
  g_autoptr(MyApplication) app = my_application_new();
  return g_application_run(G_APPLICATION(app), argc, argv);
}
```

The process environment is an association list, the calls `main` makes are
logged in a trace, and the two delegated calls (`my_application_new`, declared
in `my_application.h`, and GLib's `g_application_run`) are parameters of the
model: arbitrary functions of what they are handed, which either return or end
the process. A pointer to the application is an `Option`: `none` is `NULL`.
-/

namespace Nautune

/-! ## The process environment and libc's `setenv` -/

/-- The process environment (`environ`): `NAME=value` entries in order. -/
abbrev Env := List (String × String)

/-- Lookup as `getenv(3)` does it: the first entry with that name, `none` when absent. -/
def getenv : Env → String → Option String
  | [], _ => none
  | (k, v) :: rest, name => if k = name then some v else getenv rest name

/-- Replace the value of the first entry called `name`, or append a new entry. -/
def putEntry : Env → String → String → Env
  | [], name, value => [(name, value)]
  | (k, v) :: rest, name, value =>
    if k = name then (k, value) :: rest else (k, v) :: putEntry rest name value

/-- The libc call `setenv(name, value, overwrite)` as POSIX specifies it.
Returns `-1` and leaves the environment alone when the name is empty or holds
`=` (EINVAL) or when memory is short (ENOMEM, the flag `enomem`); otherwise
returns `0`, having added the variable when it was absent, replaced its value
when it was present and `overwrite` is non-zero, and changed nothing when it
was present and `overwrite` is zero. -/
def libc_setenv (enomem : Bool) (env : Env) (name value : String) (overwrite : Int) :
    Int × Env :=
  if name = "" ∨ name.data.any (fun c => c == '=') then (-1, env)
  else if enomem then (-1, env)
  else
    match getenv env name with
    | none => (0, putEntry env name value)
    | some _ => if overwrite ≠ 0 then (0, putEntry env name value) else (0, env)

/-! ## The world `main` runs in -/

/-- Result of a delegated call: it comes back with a value, leaving some
environment behind, or the process ends inside it (`exit`, `abort`, a fatal
signal) and control never reaches the caller again. -/
inductive Outcome (α : Type) where
  | returned (val : α) (env : Env)
  | tornDown
  deriving DecidableEq, Repr

/-- What lies outside `main.cc`: whether libc runs out of memory in `setenv`,
the application constructor and the GLib run loop. Both calls are handed the
environment as it stands when they are entered. The constructor hands back a
pointer (`none` for `NULL`) and the run loop is handed one. -/
structure Externals (App : Type) where
  enomem : Bool
  my_application_new : Env → Outcome (Option App)
  g_application_run : Env → Option App → Int → List String → Outcome Int

/-- One entry per call that `main` makes, with what the callee is handed. -/
inductive Event (App : Type) where
  | setenv (name value : String) (overwrite : Int)
  | my_application_new (env : Env)
  | g_application_run (env : Env) (app : Option App) (argc : Int) (argv : List String)
  | g_object_unref (app : App)
  deriving DecidableEq, Repr

/-- The four kinds of call, without their arguments. -/
inductive Kind where
  | setenv | my_application_new | g_application_run | g_object_unref
  deriving DecidableEq, Repr

/-- Kind of a logged call. -/
def Event.kind {App : Type} : Event App → Kind
  | .setenv _ _ _ => .setenv
  | .my_application_new _ => .my_application_new
  | .g_application_run _ _ _ _ => .g_application_run
  | .g_object_unref _ => .g_object_unref

/-- Process state: the environment and the calls made so far, oldest first. -/
structure World (App : Type) where
  env : Env
  trace : List (Event App)
  deriving DecidableEq, Repr

/-- A step of the process: from a world to a value and the next world, or to
no value when the process ended inside the step. -/
def Proc (App α : Type) : Type := World App → Option α × World App

/-- Sequencing: nothing runs after a step in which the process ended. -/
def Proc.bind {App α β : Type} (m : Proc App α) (f : α → Proc App β) : Proc App β :=
  fun w =>
    match m w with
    | (some a, w1) => f a w1
    | (none, w1) => (none, w1)

instance {App : Type} : Monad (Proc App) where
  pure a := fun w => (some a, w)
  bind := Proc.bind

/-- The call `setenv(name, value, overwrite)`: logged, the environment updated
by libc, the `int` result handed back. -/
def setenv {App : Type} (x : Externals App) (name value : String) (overwrite : Int) :
    Proc App Int :=
  fun w =>
    let r := libc_setenv x.enomem w.env name value overwrite
    (some r.1, { env := r.2, trace := w.trace ++ [Event.setenv name value overwrite] })

/-- The call `my_application_new()`; its result is the pointer stored in `app`. -/
def my_application_new {App : Type} (x : Externals App) : Proc App (Option App) :=
  fun w =>
    let t := w.trace ++ [Event.my_application_new w.env]
    match x.my_application_new w.env with
    | .returned app env1 => (some app, { env := env1, trace := t })
    | .tornDown => (none, { env := w.env, trace := t })

/-- The call `g_application_run(G_APPLICATION(app), argc, argv)`; the cast
`G_APPLICATION` hands on the same pointer. -/
def g_application_run {App : Type} (x : Externals App) (app : Option App) (argc : Int)
    (argv : List String) : Proc App Int :=
  fun w =>
    let t := w.trace ++ [Event.g_application_run w.env app argc argv]
    match x.g_application_run w.env app argc argv with
    | .returned r env1 => (some r, { env := env1, trace := t })
    | .tornDown => (none, { env := w.env, trace := t })

/-- The call `g_object_unref(app)` on an instance. -/
def g_object_unref {App : Type} (app : App) : Proc App Unit :=
  fun w => (some (), { w with trace := w.trace ++ [Event.g_object_unref app] })

/-- The cleanup `g_autoptr(MyApplication)` attaches to `app`, run when the
variable goes out of scope: `if (_ptr) g_object_unref(_ptr)`, so a `NULL`
pointer is skipped. -/
def glib_autoptr_cleanup {App : Type} (app : Option App) : Proc App Unit :=
  match app with
  | none => pure ()
  | some a => g_object_unref a

/-- The entry point of `linux/runner/main.cc`. The cleanup of `app` runs where
its scope ends: after the returned value has been computed. -/
def main {App : Type} (x : Externals App) (argc : Int) (argv : List String) : Proc App Int := do
  let _ ← setenv x "GDK_BACKEND" "x11" 0
  let app ← my_application_new x
  let r ← g_application_run x app argc argv
  glib_autoptr_cleanup app
  return r

/-- A fresh process: the given environment and no call made yet. -/
def start {App : Type} (env : Env) : World App := { env := env, trace := [] }

/-- Exit code of a run of `main` from `env`; `none` when `main` never returns. -/
def exitCode {App : Type} (x : Externals App) (argc : Int) (argv : List String) (env : Env) :
    Option Int :=
  (main x argc argv (start env)).1

/-- Calls made by a run of `main` from `env`, oldest first. -/
def calls {App : Type} (x : Externals App) (argc : Int) (argv : List String) (env : Env) :
    List (Event App) :=
  (main x argc argv (start env)).2.trace

/-- Environment left by the `setenv` statement of `main`. -/
def envAfterSetenv {App : Type} (x : Externals App) (env : Env) : Env :=
  ((setenv x "GDK_BACKEND" "x11" 0 (start env)).2).env

/-- Value the `setenv` statement of `main` returns (and `main` drops). -/
def setenvResult {App : Type} (x : Externals App) (env : Env) : Option Int :=
  (setenv x "GDK_BACKEND" "x11" 0 (start env)).1

/-- Environment at the end of a run of `main` from `env`. -/
def finalEnv {App : Type} (x : Externals App) (argc : Int) (argv : List String) (env : Env) :
    Env :=
  (main x argc argv (start env)).2.env

/-- Calls the cleanup of `app` makes: none for `NULL`, one release otherwise. -/
def releaseCalls {App : Type} : Option App → List (Event App)
  | none => []
  | some a => [Event.g_object_unref a]

/-- Number of calls of a kind in a trace. -/
def countKind {App : Type} (k : Kind) (t : List (Event App)) : Nat :=
  (t.filter (fun e => decide (e.kind = k))).length

/-! ## Sample externals -/

/-- A run loop that returns `r`, an application `7`, enough memory. -/
def sampleReturning (r : Int) : Externals Nat where
  enomem := false
  my_application_new := fun env => .returned (some 7) env
  g_application_run := fun env _ _ _ => .returned r env

/-- A run loop inside which the process ends. -/
def sampleTornDown : Externals Nat where
  enomem := false
  my_application_new := fun env => .returned (some 7) env
  g_application_run := fun _ _ _ _ => .tornDown

/-- A constructor that returns `NULL`, a run loop that returns `r`. -/
def sampleNull (r : Int) : Externals Nat where
  enomem := false
  my_application_new := fun env => .returned none env
  g_application_run := fun env _ _ _ => .returned r env

/-- Libc out of memory in `setenv`, a run loop that returns `r`. -/
def sampleEnomem (r : Int) : Externals Nat where
  enomem := true
  my_application_new := fun env => .returned (some 7) env
  g_application_run := fun env _ _ _ => .returned r env

/-! ## The model on concrete runs -/

example : exitCode (sampleReturning 3) 1 ["nautune"] [] = some 3 := by decide
example : calls (sampleReturning 3) 1 ["nautune"] [("A", "b")] =
    [.setenv "GDK_BACKEND" "x11" 0,
     .my_application_new [("A", "b"), ("GDK_BACKEND", "x11")],
     .g_application_run [("A", "b"), ("GDK_BACKEND", "x11")] (some 7) 1 ["nautune"],
     .g_object_unref 7] := by decide
example : calls sampleTornDown 1 ["nautune"] [("GDK_BACKEND", "wayland")] =
    [.setenv "GDK_BACKEND" "x11" 0,
     .my_application_new [("GDK_BACKEND", "wayland")],
     .g_application_run [("GDK_BACKEND", "wayland")] (some 7) 1 ["nautune"]] := by decide
example : calls (sampleNull 1) 1 ["nautune"] [("GDK_BACKEND", "wayland")] =
    [.setenv "GDK_BACKEND" "x11" 0,
     .my_application_new [("GDK_BACKEND", "wayland")],
     .g_application_run [("GDK_BACKEND", "wayland")] none 1 ["nautune"]] ∧
    exitCode (sampleNull 1) 1 ["nautune"] [("GDK_BACKEND", "wayland")] = some 1 := by decide
example : setenvResult (sampleEnomem 5) [] = some (-1) ∧
    envAfterSetenv (sampleEnomem 5) [] = [] ∧
    exitCode (sampleEnomem 5) 1 ["nautune"] [] = some 5 := by decide
example : exitCode (sampleReturning 0) 1 ["nautune"] [] = some 0 ∧
    exitCode (sampleReturning 1) 1 ["nautune"] [] = some 1 := by decide
example : libc_setenv false [("GDK_BACKEND", "wayland")] "GDK_BACKEND" "x11" 1 =
    (0, [("GDK_BACKEND", "x11")]) := by decide
example : libc_setenv false [] "A=B" "x11" 0 = (-1, []) := by decide

/-! ## Lemmas on the environment -/

theorem getenv_putEntry_self (env : Env) (name value : String) :
    getenv (putEntry env name value) name = some value := by
  induction env with
  | nil => simp [putEntry, getenv]
  | cons kv rest ih =>
    obtain ⟨k, v⟩ := kv
    by_cases hk : k = name
    · simp [putEntry, getenv, hk]
    · simp [putEntry, getenv, hk, ih]

theorem getenv_putEntry_of_ne (env : Env) (name value n : String) (hn : n ≠ name) :
    getenv (putEntry env name value) n = getenv env n := by
  have hn2 : ¬ name = n := fun h => hn h.symm
  induction env with
  | nil => simp [putEntry, getenv, hn2]
  | cons kv rest ih =>
    obtain ⟨k, v⟩ := kv
    by_cases hk : k = name
    · subst hk
      simp [putEntry, getenv, hn2]
    · by_cases hkn : k = n
      · subst hkn
        simp [putEntry, getenv, hk]
      · simp [putEntry, getenv, hk, hkn, ih]

theorem libc_setenv_gdk (b : Bool) (env : Env) :
    libc_setenv b env "GDK_BACKEND" "x11" 0 =
      if b then (-1, env)
      else match getenv env "GDK_BACKEND" with
        | none => (0, putEntry env "GDK_BACKEND" "x11")
        | some _ => (0, env) := by
  have hname : ¬ ("GDK_BACKEND" = "" ∨
      ("GDK_BACKEND" : String).data.any (fun c => c == '=') = true) := by decide
  unfold libc_setenv
  rw [if_neg hname]
  cases b <;> simp

theorem envAfterSetenv_eq {App : Type} (x : Externals App) (env : Env) :
    envAfterSetenv x env = (libc_setenv x.enomem env "GDK_BACKEND" "x11" 0).2 := rfl

theorem setenvResult_eq {App : Type} (x : Externals App) (env : Env) :
    setenvResult x env = some (libc_setenv x.enomem env "GDK_BACKEND" "x11" 0).1 := rfl

theorem envAfterSetenv_of_present {App : Type} (x : Externals App) (env : Env) (v : String)
    (h : getenv env "GDK_BACKEND" = some v) : envAfterSetenv x env = env := by
  rw [envAfterSetenv_eq, libc_setenv_gdk]
  cases x.enomem <;> simp [h]

theorem envAfterSetenv_frame {App : Type} (x : Externals App) (env : Env) (n : String)
    (hn : n ≠ "GDK_BACKEND") : getenv (envAfterSetenv x env) n = getenv env n := by
  rw [envAfterSetenv_eq, libc_setenv_gdk]
  cases x.enomem
  · cases h : getenv env "GDK_BACKEND" with
    | none => simp [getenv_putEntry_of_ne env "GDK_BACKEND" "x11" n hn]
    | some v => simp
  · simp

/-! ## The ways a run of `main` can go -/

theorem main_new_tornDown {App : Type} (x : Externals App) (argc : Int) (argv : List String)
    (env : Env) (hnew : x.my_application_new (envAfterSetenv x env) = .tornDown) :
    main x argc argv (start env) =
      (none, { env := envAfterSetenv x env,
               trace := [.setenv "GDK_BACKEND" "x11" 0,
                         .my_application_new (envAfterSetenv x env)] }) := by
  rw [envAfterSetenv_eq] at hnew
  simp [main, bind, Proc.bind, setenv, my_application_new, start, envAfterSetenv, hnew]

theorem main_run_tornDown {App : Type} (x : Externals App) (argc : Int) (argv : List String)
    (env : Env) (app : Option App) (e2 : Env)
    (hnew : x.my_application_new (envAfterSetenv x env) = .returned app e2)
    (hrun : x.g_application_run e2 app argc argv = .tornDown) :
    main x argc argv (start env) =
      (none, { env := e2,
               trace := [.setenv "GDK_BACKEND" "x11" 0,
                         .my_application_new (envAfterSetenv x env),
                         .g_application_run e2 app argc argv] }) := by
  rw [envAfterSetenv_eq] at hnew
  simp [main, bind, Proc.bind, setenv, my_application_new, g_application_run, start,
    envAfterSetenv, hnew, hrun]

theorem main_returned {App : Type} (x : Externals App) (argc : Int) (argv : List String)
    (env : Env) (app : Option App) (e2 : Env) (r : Int) (e3 : Env)
    (hnew : x.my_application_new (envAfterSetenv x env) = .returned app e2)
    (hrun : x.g_application_run e2 app argc argv = .returned r e3) :
    main x argc argv (start env) =
      (some r, { env := e3,
                 trace := [.setenv "GDK_BACKEND" "x11" 0,
                           .my_application_new (envAfterSetenv x env),
                           .g_application_run e2 app argc argv] ++ releaseCalls app }) := by
  rw [envAfterSetenv_eq] at hnew
  cases app <;>
    simp [main, bind, Proc.bind, setenv, my_application_new, g_application_run, g_object_unref,
      glib_autoptr_cleanup, releaseCalls, start, envAfterSetenv, hnew, hrun, pure]

/-- Every run of `main` goes one of four ways: the process ends inside the
constructor, it ends inside the run loop, both calls return and the pointer is
`NULL`, or both calls return and the pointer is an instance. -/
theorem main_cases {App : Type} (x : Externals App) (argc : Int) (argv : List String)
    (env : Env) :
    (x.my_application_new (envAfterSetenv x env) = .tornDown ∧
      main x argc argv (start env) =
        (none, { env := envAfterSetenv x env,
                 trace := [.setenv "GDK_BACKEND" "x11" 0,
                           .my_application_new (envAfterSetenv x env)] })) ∨
    (∃ app e2, x.my_application_new (envAfterSetenv x env) = .returned app e2 ∧
      x.g_application_run e2 app argc argv = .tornDown ∧
      main x argc argv (start env) =
        (none, { env := e2,
                 trace := [.setenv "GDK_BACKEND" "x11" 0,
                           .my_application_new (envAfterSetenv x env),
                           .g_application_run e2 app argc argv] })) ∨
    (∃ e2 r e3, x.my_application_new (envAfterSetenv x env) = .returned none e2 ∧
      x.g_application_run e2 none argc argv = .returned r e3 ∧
      main x argc argv (start env) =
        (some r, { env := e3,
                   trace := [.setenv "GDK_BACKEND" "x11" 0,
                             .my_application_new (envAfterSetenv x env),
                             .g_application_run e2 none argc argv] })) ∨
    (∃ a e2 r e3, x.my_application_new (envAfterSetenv x env) = .returned (some a) e2 ∧
      x.g_application_run e2 (some a) argc argv = .returned r e3 ∧
      main x argc argv (start env) =
        (some r, { env := e3,
                   trace := [.setenv "GDK_BACKEND" "x11" 0,
                             .my_application_new (envAfterSetenv x env),
                             .g_application_run e2 (some a) argc argv,
                             .g_object_unref a] })) := by
  cases hnew : x.my_application_new (envAfterSetenv x env) with
  | tornDown => exact Or.inl ⟨rfl, main_new_tornDown x argc argv env hnew⟩
  | returned app e2 =>
    cases hrun : x.g_application_run e2 app argc argv with
    | tornDown =>
      exact Or.inr (Or.inl ⟨app, e2, rfl, hrun, main_run_tornDown x argc argv env app e2 hnew hrun⟩)
    | returned r e3 =>
      have hm := main_returned x argc argv env app e2 r e3 hnew hrun
      cases app with
      | none => exact Or.inr (Or.inr (Or.inl ⟨e2, r, e3, rfl, hrun, hm⟩))
      | some a => exact Or.inr (Or.inr (Or.inr ⟨a, e2, r, e3, rfl, hrun, hm⟩))

/-- The constructor is always entered, in the environment the `setenv`
statement left, and in no other. -/
theorem new_event_env {App : Type} (x : Externals App) (argc : Int) (argv : List String)
    (env : Env) :
    Event.my_application_new (envAfterSetenv x env) ∈ calls x argc argv env ∧
    ∀ e, Event.my_application_new e ∈ calls x argc argv env → e = envAfterSetenv x env := by
  rcases main_cases x argc argv env with ⟨_, hm⟩ | ⟨app, e2, _, _, hm⟩ | ⟨e2, r, e3, _, _, hm⟩ |
      ⟨a, e2, r, e3, _, _, hm⟩ <;>
    simp [calls, hm]

/-! ## The claims -/

/-- C1: when `GDK_BACKEND` is already set to a non-empty value `v`, then whatever
the constructor and the run loop do, the environment left by the `setenv`
statement of `main` still maps `GDK_BACKEND` to `v`, and that is the
environment in which the application is constructed. -/
theorem gdk_backend_preset_is_kept {App : Type} (x : Externals App) (argc : Int)
    (argv : List String) (env : Env) (v : String)
    (hset : getenv env "GDK_BACKEND" = some v) (_hv : v ≠ "") :
    getenv (envAfterSetenv x env) "GDK_BACKEND" = some v ∧
    Event.my_application_new (envAfterSetenv x env) ∈ calls x argc argv env ∧
    ∀ e, Event.my_application_new e ∈ calls x argc argv env →
      getenv e "GDK_BACKEND" = some v := by
  have hkeep : getenv (envAfterSetenv x env) "GDK_BACKEND" = some v := by
    rw [envAfterSetenv_of_present x env v hset]; exact hset
  refine ⟨hkeep, (new_event_env x argc argv env).1, ?_⟩
  intro e he
  rw [(new_event_env x argc argv env).2 e he]
  exact hkeep

/-- Witness for C1: a process started with `GDK_BACKEND=wayland`. -/
theorem gdk_backend_preset_is_kept_witness :
    getenv [("HOME", "/root"), ("GDK_BACKEND", "wayland")] "GDK_BACKEND" = some "wayland" ∧
    getenv (envAfterSetenv (sampleReturning 0) [("HOME", "/root"), ("GDK_BACKEND", "wayland")])
      "GDK_BACKEND" = some "wayland" :=
  ⟨by decide,
   (gdk_backend_preset_is_kept (sampleReturning 0) 1 ["nautune"]
      [("HOME", "/root"), ("GDK_BACKEND", "wayland")] "wayland" (by decide) (by decide)).1⟩

/-- C2: when `GDK_BACKEND` is unset and the `setenv` call of `main` succeeds
(returns 0), the environment it leaves, in which the application is
constructed, maps `GDK_BACKEND` to `"x11"`. -/
theorem gdk_backend_unset_becomes_x11 {App : Type} (x : Externals App) (argc : Int)
    (argv : List String) (env : Env)
    (hunset : getenv env "GDK_BACKEND" = none) (hok : setenvResult x env = some 0) :
    getenv (envAfterSetenv x env) "GDK_BACKEND" = some "x11" ∧
    ∀ e, Event.my_application_new e ∈ calls x argc argv env →
      getenv e "GDK_BACKEND" = some "x11" := by
  have hset : getenv (envAfterSetenv x env) "GDK_BACKEND" = some "x11" := by
    rw [setenvResult_eq, libc_setenv_gdk] at hok
    rw [envAfterSetenv_eq, libc_setenv_gdk]
    cases hmem : x.enomem
    · simp [hunset, getenv_putEntry_self]
    · simp [hmem] at hok
  refine ⟨hset, ?_⟩
  intro e he
  rw [(new_event_env x argc argv env).2 e he]
  exact hset

/-- Witness for C2: a process started without `GDK_BACKEND`. -/
theorem gdk_backend_unset_becomes_x11_witness :
    getenv [("HOME", "/root")] "GDK_BACKEND" = none ∧
    setenvResult (sampleReturning 0) [("HOME", "/root")] = some 0 ∧
    getenv (envAfterSetenv (sampleReturning 0) [("HOME", "/root")]) "GDK_BACKEND" = some "x11" :=
  ⟨by decide, by decide,
   (gdk_backend_unset_becomes_x11 (sampleReturning 0) 1 ["nautune"] [("HOME", "/root")]
      (by decide) (by decide)).1⟩

/-- C3: whatever integer `r` the run loop returns (zero and negative values
included), `main` returns exactly `r`. -/
theorem main_returns_run_loop_result {App : Type} (x : Externals App) (argc : Int)
    (argv : List String) (env : Env) (app : Option App) (e2 : Env) (r : Int) (e3 : Env)
    (hnew : x.my_application_new (envAfterSetenv x env) = .returned app e2)
    (hrun : x.g_application_run e2 app argc argv = .returned r e3) :
    exitCode x argc argv env = some r := by
  simp [exitCode, main_returned x argc argv env app e2 r e3 hnew hrun]

/-- Witness for C3: a run loop that returns `-1`. -/
theorem main_returns_run_loop_result_witness :
    exitCode (sampleReturning (-1)) 1 ["nautune"] [] = some (-1) :=
  main_returns_run_loop_result (sampleReturning (-1)) 1 ["nautune"] [] (some 7)
    [("GDK_BACKEND", "x11")] (-1) [("GDK_BACKEND", "x11")] rfl rfl

/-- C4: every call of the run loop that `main` makes carries the `argc` and
`argv` that `main` received, and when the constructor returns the run loop is
called exactly once, with exactly those; this holds for every environment. -/
theorem run_loop_gets_same_arguments {App : Type} (x : Externals App) (argc : Int)
    (argv : List String) (env : Env) :
    (∀ e app c v, Event.g_application_run e app c v ∈ calls x argc argv env →
      c = argc ∧ v = argv) ∧
    (∀ app e2, x.my_application_new (envAfterSetenv x env) = .returned app e2 →
      (calls x argc argv env).filter (fun ev => decide (ev.kind = Kind.g_application_run)) =
        [Event.g_application_run e2 app argc argv]) := by
  rcases main_cases x argc argv env with ⟨hn, hm⟩ | ⟨app, e2, hn, _, hm⟩ |
      ⟨e2, r, e3, hn, _, hm⟩ | ⟨a0, e2, r, e3, hn, _, hm⟩
  · simp [calls, hm, hn]
  · refine ⟨?_, ?_⟩
    · intro e a c v h
      simp [calls, hm] at h
      exact ⟨h.2.2.1, h.2.2.2⟩
    · intro a e h
      rw [hn] at h
      injection h with ha he
      subst ha; subst he
      simp [calls, hm, Event.kind]
  · refine ⟨?_, ?_⟩
    · intro e a c v h
      simp [calls, hm] at h
      exact ⟨h.2.2.1, h.2.2.2⟩
    · intro a e h
      rw [hn] at h
      injection h with ha he
      subst ha; subst he
      simp [calls, hm, Event.kind]
  · refine ⟨?_, ?_⟩
    · intro e a c v h
      simp [calls, hm] at h
      exact ⟨h.2.2.1, h.2.2.2⟩
    · intro a e h
      rw [hn] at h
      injection h with ha he
      subst ha; subst he
      simp [calls, hm, Event.kind]

/-- C5: the `setenv` statement of `main` leaves every variable other than
`GDK_BACKEND` with the presence and value it had; the calls `main` makes are one
`setenv("GDK_BACKEND", "x11", 0)`, one construction, at most one run-loop call
and at most one release, and nothing else; and when the delegated calls leave
the environment as they found it, the environment at the end of `main` differs
from the initial one at most in `GDK_BACKEND`. -/
theorem main_changes_only_gdk_backend {App : Type} (x : Externals App) (argc : Int)
    (argv : List String) (env : Env) :
    (∀ n, n ≠ "GDK_BACKEND" → getenv (envAfterSetenv x env) n = getenv env n) ∧
    (∀ ev, ev ∈ calls x argc argv env → ev.kind = Kind.setenv →
      ev = Event.setenv "GDK_BACKEND" "x11" 0) ∧
    countKind Kind.setenv (calls x argc argv env) = 1 ∧
    countKind Kind.my_application_new (calls x argc argv env) = 1 ∧
    countKind Kind.g_application_run (calls x argc argv env) ≤ 1 ∧
    countKind Kind.g_object_unref (calls x argc argv env) ≤ 1 ∧
    (calls x argc argv env).length =
      countKind Kind.setenv (calls x argc argv env) +
      countKind Kind.my_application_new (calls x argc argv env) +
      countKind Kind.g_application_run (calls x argc argv env) +
      countKind Kind.g_object_unref (calls x argc argv env) ∧
    ((∀ e a e1, x.my_application_new e = .returned a e1 → e1 = e) →
     (∀ e a c v r e1, x.g_application_run e a c v = .returned r e1 → e1 = e) →
     ∀ n, n ≠ "GDK_BACKEND" → getenv (finalEnv x argc argv env) n = getenv env n) := by
  refine ⟨envAfterSetenv_frame x env, ?_⟩
  rcases main_cases x argc argv env with ⟨hn, hm⟩ | ⟨app, e2, hn, hr, hm⟩ |
      ⟨e2, r, e3, hn, hr, hm⟩ | ⟨a0, e2, r, e3, hn, hr, hm⟩
  · refine ⟨?_, ?_, ?_, ?_, ?_, ?_, ?_⟩
    · intro ev hev hk
      simp [calls, hm] at hev
      rcases hev with h | h
      · exact h
      · subst h; simp [Event.kind] at hk
    · simp [calls, hm, countKind, Event.kind]
    · simp [calls, hm, countKind, Event.kind]
    · simp [calls, hm, countKind, Event.kind]
    · simp [calls, hm, countKind, Event.kind]
    · simp [calls, hm, countKind, Event.kind]
    · intro _ _ n hne
      simp only [finalEnv, hm]
      exact envAfterSetenv_frame x env n hne
  · refine ⟨?_, ?_, ?_, ?_, ?_, ?_, ?_⟩
    · intro ev hev hk
      simp [calls, hm] at hev
      rcases hev with h | h | h
      · exact h
      · subst h; simp [Event.kind] at hk
      · subst h; simp [Event.kind] at hk
    · simp [calls, hm, countKind, Event.kind]
    · simp [calls, hm, countKind, Event.kind]
    · simp [calls, hm, countKind, Event.kind]
    · simp [calls, hm, countKind, Event.kind]
    · simp [calls, hm, countKind, Event.kind]
    · intro hnew _ n hne
      simp only [finalEnv, hm]
      rw [hnew _ _ _ hn]
      exact envAfterSetenv_frame x env n hne
  · refine ⟨?_, ?_, ?_, ?_, ?_, ?_, ?_⟩
    · intro ev hev hk
      simp [calls, hm] at hev
      rcases hev with h | h | h
      · exact h
      · subst h; simp [Event.kind] at hk
      · subst h; simp [Event.kind] at hk
    · simp [calls, hm, countKind, Event.kind]
    · simp [calls, hm, countKind, Event.kind]
    · simp [calls, hm, countKind, Event.kind]
    · simp [calls, hm, countKind, Event.kind]
    · simp [calls, hm, countKind, Event.kind]
    · intro hnew hrun n hne
      simp only [finalEnv, hm]
      rw [hrun _ _ _ _ _ _ hr, hnew _ _ _ hn]
      exact envAfterSetenv_frame x env n hne
  · refine ⟨?_, ?_, ?_, ?_, ?_, ?_, ?_⟩
    · intro ev hev hk
      simp [calls, hm] at hev
      rcases hev with h | h | h | h
      · exact h
      · subst h; simp [Event.kind] at hk
      · subst h; simp [Event.kind] at hk
      · subst h; simp [Event.kind] at hk
    · simp [calls, hm, countKind, Event.kind]
    · simp [calls, hm, countKind, Event.kind]
    · simp [calls, hm, countKind, Event.kind]
    · simp [calls, hm, countKind, Event.kind]
    · simp [calls, hm, countKind, Event.kind]
    · intro hnew hrun n hne
      simp only [finalEnv, hm]
      rw [hrun _ _ _ _ _ _ hr, hnew _ _ _ hn]
      exact envAfterSetenv_frame x env n hne

/-- C6 as stated fails: when the process ends inside the run loop, `main` has
constructed the application once, never returns and never releases it. -/
theorem release_skipped_when_run_loop_ends_process :
    exitCode sampleTornDown 1 ["nautune"] [] = none ∧
    countKind Kind.my_application_new (calls sampleTornDown 1 ["nautune"] []) = 1 ∧
    countKind Kind.g_object_unref (calls sampleTornDown 1 ["nautune"] []) = 0 := by
  decide

/-- C6, amended: every run of `main` calls `my_application_new` exactly once
and releases at most once; when the constructor returns an instance (a pointer
that is not `NULL`) and the run loop returns, `main` releases that instance
exactly once, as its last call, right after the run loop; when the constructor
returns `NULL`, or the process ends inside the constructor or inside the run
loop, `main` makes no release. -/
theorem app_constructed_once_released_on_return {App : Type} (x : Externals App) (argc : Int)
    (argv : List String) (env : Env) :
    countKind Kind.my_application_new (calls x argc argv env) = 1 ∧
    countKind Kind.g_object_unref (calls x argc argv env) ≤ 1 ∧
    (∀ a e2 r e3, x.my_application_new (envAfterSetenv x env) = .returned (some a) e2 →
      x.g_application_run e2 (some a) argc argv = .returned r e3 →
      countKind Kind.g_object_unref (calls x argc argv env) = 1 ∧
      (calls x argc argv env).getLast? = some (Event.g_object_unref a) ∧
      (calls x argc argv env).dropLast.getLast? =
        some (Event.g_application_run e2 (some a) argc argv)) ∧
    (∀ e2, x.my_application_new (envAfterSetenv x env) = .returned none e2 →
      countKind Kind.g_object_unref (calls x argc argv env) = 0) ∧
    (x.my_application_new (envAfterSetenv x env) = .tornDown →
      countKind Kind.g_object_unref (calls x argc argv env) = 0) ∧
    (∀ app e2, x.my_application_new (envAfterSetenv x env) = .returned app e2 →
      x.g_application_run e2 app argc argv = .tornDown →
      countKind Kind.g_object_unref (calls x argc argv env) = 0) ∧
    (∀ b, Event.g_object_unref b ∈ calls x argc argv env →
      ∃ e2 r e3, x.my_application_new (envAfterSetenv x env) = .returned (some b) e2 ∧
        x.g_application_run e2 (some b) argc argv = .returned r e3) := by
  rcases main_cases x argc argv env with ⟨hn, hm⟩ | ⟨app, e2, hn, hr, hm⟩ |
      ⟨e2, r, e3, hn, hr, hm⟩ | ⟨a0, e2, r, e3, hn, hr, hm⟩
  · refine ⟨?_, ?_, ?_, ?_, ?_, ?_, ?_⟩
    · simp [calls, hm, countKind, Event.kind]
    · simp [calls, hm, countKind, Event.kind]
    · intro a e r e3 h; rw [hn] at h; cases h
    · intro e h; rw [hn] at h; cases h
    · intro _; simp [calls, hm, countKind, Event.kind]
    · intro a e h; rw [hn] at h; cases h
    · intro b hb; simp [calls, hm] at hb
  · refine ⟨?_, ?_, ?_, ?_, ?_, ?_, ?_⟩
    · simp [calls, hm, countKind, Event.kind]
    · simp [calls, hm, countKind, Event.kind]
    · intro a e r e3 h h2
      rw [hn] at h
      injection h with ha he
      subst ha; subst he
      rw [hr] at h2; cases h2
    · intro _ _; simp [calls, hm, countKind, Event.kind]
    · intro h; rw [hn] at h; cases h
    · intro _ _ _ _; simp [calls, hm, countKind, Event.kind]
    · intro b hb; simp [calls, hm] at hb
  · refine ⟨?_, ?_, ?_, ?_, ?_, ?_, ?_⟩
    · simp [calls, hm, countKind, Event.kind]
    · simp [calls, hm, countKind, Event.kind]
    · intro a e r1 e4 h _
      rw [hn] at h
      injection h with ha he
      cases ha
    · intro _ _; simp [calls, hm, countKind, Event.kind]
    · intro h; rw [hn] at h; cases h
    · intro a e h h2
      rw [hn] at h
      injection h with ha he
      subst ha; subst he
      rw [hr] at h2; cases h2
    · intro b hb; simp [calls, hm] at hb
  · refine ⟨?_, ?_, ?_, ?_, ?_, ?_, ?_⟩
    · simp [calls, hm, countKind, Event.kind]
    · simp [calls, hm, countKind, Event.kind]
    · intro a e r1 e4 h _
      rw [hn] at h
      injection h with ha he
      injection ha with ha
      subst ha; subst he
      simp [calls, hm, countKind, Event.kind]
    · intro e h; rw [hn] at h; injection h with ha _; cases ha
    · intro h; rw [hn] at h; cases h
    · intro a e h h2
      rw [hn] at h
      injection h with ha he
      subst ha; subst he
      rw [hr] at h2; cases h2
    · intro b hb
      simp [calls, hm] at hb
      subst hb
      exact ⟨e2, r, e3, hn, hr⟩

/-- C7: in every run of `main` the calls are an initial part of the sequence
`setenv`, construction, run loop, release; the `setenv` call is the first and
no later call is a `setenv`; the constructor is entered in the environment the
`setenv` statement left, in which `GDK_BACKEND` is set whenever the `setenv`
call returned 0; the run loop is entered in the environment the constructor
returned in, `main` writing nothing in between, so it too sees the environment
of the `setenv` statement when the constructor leaves the environment alone.
When both delegated calls return, the calls are exactly `setenv`, construction,
run loop and then the release of the instance, the release being left out only
for a `NULL` pointer. -/
theorem main_call_order {App : Type} (x : Externals App) (argc : Int)
    (argv : List String) (env : Env) :
    (∃ rest, (calls x argc argv env).map Event.kind ++ rest =
      [Kind.setenv, Kind.my_application_new, Kind.g_application_run, Kind.g_object_unref]) ∧
    (calls x argc argv env).head? = some (Event.setenv "GDK_BACKEND" "x11" 0) ∧
    countKind Kind.setenv ((calls x argc argv env).drop 1) = 0 ∧
    ((calls x argc argv env).drop 1).head? =
      some (Event.my_application_new (envAfterSetenv x env)) ∧
    (∀ e, Event.my_application_new e ∈ calls x argc argv env → e = envAfterSetenv x env) ∧
    (∀ e app c v, Event.g_application_run e app c v ∈ calls x argc argv env →
      x.my_application_new (envAfterSetenv x env) = .returned app e) ∧
    (∀ a e2 r e3, x.my_application_new (envAfterSetenv x env) = .returned (some a) e2 →
      x.g_application_run e2 (some a) argc argv = .returned r e3 →
      calls x argc argv env =
        [Event.setenv "GDK_BACKEND" "x11" 0,
         Event.my_application_new (envAfterSetenv x env),
         Event.g_application_run e2 (some a) argc argv,
         Event.g_object_unref a]) ∧
    (∀ e2 r e3, x.my_application_new (envAfterSetenv x env) = .returned none e2 →
      x.g_application_run e2 none argc argv = .returned r e3 →
      calls x argc argv env =
        [Event.setenv "GDK_BACKEND" "x11" 0,
         Event.my_application_new (envAfterSetenv x env),
         Event.g_application_run e2 none argc argv]) ∧
    (setenvResult x env = some 0 →
      ∀ e, Event.my_application_new e ∈ calls x argc argv env →
        getenv e "GDK_BACKEND" = some ((getenv env "GDK_BACKEND").getD "x11")) ∧
    ((∀ e p e1, x.my_application_new e = .returned p e1 → e1 = e) →
      ∀ e app c v, Event.g_application_run e app c v ∈ calls x argc argv env →
        e = envAfterSetenv x env) := by
  have hconf : setenvResult x env = some 0 →
      ∀ e, Event.my_application_new e ∈ calls x argc argv env →
        getenv e "GDK_BACKEND" = some ((getenv env "GDK_BACKEND").getD "x11") := by
    intro hok e he
    rw [(new_event_env x argc argv env).2 e he]
    rw [setenvResult_eq, libc_setenv_gdk] at hok
    rw [envAfterSetenv_eq, libc_setenv_gdk]
    cases hmem : x.enomem
    · cases hg : getenv env "GDK_BACKEND" with
      | none => simp [getenv_putEntry_self]
      | some v => simp [hg]
    · simp [hmem] at hok
  rcases main_cases x argc argv env with ⟨hn, hm⟩ | ⟨app, e2, hn, hr, hm⟩ |
      ⟨e2, r, e3, hn, hr, hm⟩ | ⟨a0, e2, r, e3, hn, hr, hm⟩
  · refine ⟨⟨[Kind.g_application_run, Kind.g_object_unref], ?_⟩, ?_, ?_, ?_, ?_, ?_, ?_, ?_,
      hconf, ?_⟩
    · simp [calls, hm, Event.kind]
    · simp [calls, hm]
    · simp [calls, hm, countKind, Event.kind]
    · simp [calls, hm]
    · intro e he; simpa [calls, hm] using he
    · intro e a c v h; simp [calls, hm] at h
    · intro a e r e3 h; rw [hn] at h; cases h
    · intro e r e3 h; rw [hn] at h; cases h
    · intro _ e a c v h; simp [calls, hm] at h
  · refine ⟨⟨[Kind.g_object_unref], ?_⟩, ?_, ?_, ?_, ?_, ?_, ?_, ?_, hconf, ?_⟩
    · simp [calls, hm, Event.kind]
    · simp [calls, hm]
    · simp [calls, hm, countKind, Event.kind]
    · simp [calls, hm]
    · intro e he; simpa [calls, hm] using he
    · intro e a c v h
      simp [calls, hm] at h
      rw [hn, h.1, h.2.1]
    · intro a e r e3 h h2
      rw [hn] at h
      injection h with ha he
      subst ha; subst he
      rw [hr] at h2; cases h2
    · intro e r e3 h h2
      rw [hn] at h
      injection h with ha he
      subst ha; subst he
      rw [hr] at h2; cases h2
    · intro hpure e a c v h
      simp [calls, hm] at h
      rw [h.1]
      exact hpure _ _ _ hn
  · refine ⟨⟨[Kind.g_object_unref], ?_⟩, ?_, ?_, ?_, ?_, ?_, ?_, ?_, hconf, ?_⟩
    · simp [calls, hm, Event.kind]
    · simp [calls, hm]
    · simp [calls, hm, countKind, Event.kind]
    · simp [calls, hm]
    · intro e he; simpa [calls, hm] using he
    · intro e a c v h
      simp [calls, hm] at h
      rw [hn, h.1, h.2.1]
    · intro a e r1 e4 h _
      rw [hn] at h
      injection h with ha he
      cases ha
    · intro e r1 e4 h _
      rw [hn] at h
      injection h with ha he
      subst he
      simp [calls, hm]
    · intro hpure e a c v h
      simp [calls, hm] at h
      rw [h.1]
      exact hpure _ _ _ hn
  · refine ⟨⟨[], ?_⟩, ?_, ?_, ?_, ?_, ?_, ?_, ?_, hconf, ?_⟩
    · simp [calls, hm, Event.kind]
    · simp [calls, hm]
    · simp [calls, hm, countKind, Event.kind]
    · simp [calls, hm]
    · intro e he; simpa [calls, hm] using he
    · intro e a c v h
      simp [calls, hm] at h
      rw [hn, h.1, h.2.1]
    · intro a e r1 e4 h _
      rw [hn] at h
      injection h with ha he
      injection ha with ha
      subst ha; subst he
      simp [calls, hm]
    · intro e r1 e4 h _
      rw [hn] at h
      injection h with ha he
      cases ha
    · intro hpure e a c v h
      simp [calls, hm] at h
      rw [h.1]
      exact hpure _ _ _ hn

/-- C8: whatever the `setenv` call reports (its result is dropped, failure
included), `main` calls the constructor exactly once, calls the run loop exactly
once when the constructor returns, returns the run loop's result when the run
loop returns, and returns no code but one the run loop returned. -/
theorem main_has_no_exit_code_of_its_own {App : Type} (x : Externals App) (argc : Int)
    (argv : List String) (env : Env) :
    countKind Kind.my_application_new (calls x argc argv env) = 1 ∧
    (∀ app e2, x.my_application_new (envAfterSetenv x env) = .returned app e2 →
      countKind Kind.g_application_run (calls x argc argv env) = 1 ∧
      Event.g_application_run e2 app argc argv ∈ calls x argc argv env) ∧
    (∀ app e2 r e3, x.my_application_new (envAfterSetenv x env) = .returned app e2 →
      x.g_application_run e2 app argc argv = .returned r e3 →
      exitCode x argc argv env = some r) ∧
    (∀ c, exitCode x argc argv env = some c →
      ∃ app e2 e3, x.my_application_new (envAfterSetenv x env) = .returned app e2 ∧
        x.g_application_run e2 app argc argv = .returned c e3) := by
  rcases main_cases x argc argv env with ⟨hn, hm⟩ | ⟨app, e2, hn, hr, hm⟩ |
      ⟨e2, r, e3, hn, hr, hm⟩ | ⟨a0, e2, r, e3, hn, hr, hm⟩
  · refine ⟨?_, ?_, ?_, ?_⟩
    · simp [calls, hm, countKind, Event.kind]
    · intro a e h; rw [hn] at h; cases h
    · intro a e r e3 h; rw [hn] at h; cases h
    · intro c h; simp [exitCode, hm] at h
  · refine ⟨?_, ?_, ?_, ?_⟩
    · simp [calls, hm, countKind, Event.kind]
    · intro a e h
      rw [hn] at h
      injection h with ha he
      subst ha; subst he
      simp [calls, hm, countKind, Event.kind]
    · intro a e r e3 h h2
      rw [hn] at h
      injection h with ha he
      subst ha; subst he
      rw [hr] at h2; cases h2
    · intro c h; simp [exitCode, hm] at h
  · refine ⟨?_, ?_, ?_, ?_⟩
    · simp [calls, hm, countKind, Event.kind]
    · intro a e h
      rw [hn] at h
      injection h with ha he
      subst ha; subst he
      simp [calls, hm, countKind, Event.kind]
    · intro a e r1 e4 h h2
      rw [hn] at h
      injection h with ha he
      subst ha; subst he
      rw [hr] at h2
      injection h2 with hr1 _
      subst hr1
      simp [exitCode, hm]
    · intro c h
      simp [exitCode, hm] at h
      subst h
      exact ⟨none, e2, e3, hn, hr⟩
  · refine ⟨?_, ?_, ?_, ?_⟩
    · simp [calls, hm, countKind, Event.kind]
    · intro a e h
      rw [hn] at h
      injection h with ha he
      subst ha; subst he
      simp [calls, hm, countKind, Event.kind]
    · intro a e r1 e4 h h2
      rw [hn] at h
      injection h with ha he
      subst ha; subst he
      rw [hr] at h2
      injection h2 with hr1 _
      subst hr1
      simp [exitCode, hm]
    · intro c h
      simp [exitCode, hm] at h
      subst h
      exact ⟨some a0, e2, e3, hn, hr⟩

/-- C9: when `GDK_BACKEND` is present with the empty string as its value, the
`setenv` statement of `main` (overwrite = 0) leaves it equal to the empty
string, not `"x11"`, and the application is constructed in that environment. -/
theorem gdk_backend_empty_is_kept {App : Type} (x : Externals App) (argc : Int)
    (argv : List String) (env : Env) (hempty : getenv env "GDK_BACKEND" = some "") :
    getenv (envAfterSetenv x env) "GDK_BACKEND" = some "" ∧
    getenv (envAfterSetenv x env) "GDK_BACKEND" ≠ some "x11" ∧
    envAfterSetenv x env = env ∧
    ∀ e, Event.my_application_new e ∈ calls x argc argv env →
      getenv e "GDK_BACKEND" = some "" := by
  have henv : envAfterSetenv x env = env := envAfterSetenv_of_present x env "" hempty
  have hkeep : getenv (envAfterSetenv x env) "GDK_BACKEND" = some "" := by
    rw [henv]; exact hempty
  refine ⟨hkeep, ?_, henv, ?_⟩
  · rw [hkeep]; decide
  · intro e he
    rw [(new_event_env x argc argv env).2 e he]
    exact hkeep

/-- Witness for C9: a process started with `GDK_BACKEND=` (empty value). -/
theorem gdk_backend_empty_is_kept_witness :
    getenv [("GDK_BACKEND", ""), ("HOME", "/root")] "GDK_BACKEND" = some "" ∧
    getenv (envAfterSetenv (sampleReturning 0) [("GDK_BACKEND", ""), ("HOME", "/root")])
      "GDK_BACKEND" = some "" :=
  ⟨by decide,
   (gdk_backend_empty_is_kept (sampleReturning 0) 1 ["nautune"]
      [("GDK_BACKEND", ""), ("HOME", "/root")] (by decide)).1⟩

end Nautune
